import Mathlib

/-!
Shallow embedding of the HTTP transport router of the repository
(`src/src/tools/files.ts`, the transport document: functions `start`,
`startStdioTransport`, `handleSSE`, `handleHealth`, `handleStreamable`,
`startHttpTransport`).

Modelling conventions:
- The single-threaded event loop is modelled by explicit state passing.
  Each request handler consumes the registry state and returns the HTTP
  outcome together with the ordered list of effects (`Event`) it performs;
  replaying the effects over the state yields every intermediate registry
  state, which the temporal claims quantify over.
- External collaborators are modelled at their interface: the backend
  factory connect (`mcpServer.connect`) may succeed or reject, captured by
  the boolean `connectOk`; the SDK transports generate fresh ids, captured
  by the parameter `freshId`; the WHATWG URL constructor applied to
  `"http://localhost" ++ req.url` either yields a parsed URL or throws,
  captured by `Request.url : Option UrlData` (with `none` for a raw
  request target the constructor rejects, e.g. a target introducing a
  forbidden host code point).
- JavaScript string truthiness matters: the source guards
  `if (sessionId)` and `if (!sessionId)` treat the empty string like an
  absent value, and the embedding reproduces that faithfully.
-/

namespace McpTransport

/-- Parsed URL data the router consumes: `url.pathname` and
`url.searchParams.get("sessionId")` (absent parameter is `none`,
a present empty parameter is `some ""`). -/
structure UrlData where
  pathname : String
  sessionIdParam : Option String
deriving Repr, DecidableEq

/-- An inbound HTTP request as the transport layer observes it.
`url` is the result of `new URL("http://localhost" ++ rawTarget)`:
`none` means the constructor throws on this raw target.
`mcpSessionId` is the `mcp-session-id` header (`some ""` is a present
but empty header value). `isInitializeRequest` records whether the body
is an MCP InitializeRequest, which the SDK transport inspects. -/
structure Request where
  method : String
  url : Option UrlData
  mcpSessionId : Option String
  isInitializeRequest : Bool
deriving Repr, DecidableEq

/-- The session id generator handed to `StreamableHTTPServerTransport`:
the header path passes `() => sessionId` (a fixed value), the fresh POST
path passes `() => crypto.randomUUID()` (cryptographically random). -/
inductive SessionIdGen where
  | fixed (sid : String)
  | random
deriving Repr, DecidableEq

/-- The observable fields of a `StreamableHTTPServerTransport`:
its generator, its `sessionId` (undefined until initialization) and its
`_initialized` flag. -/
structure StreamTransport where
  sessionIdGenerator : SessionIdGen
  sessionId : Option String
  initialized : Bool
deriving Repr, DecidableEq

/-- The observable fields of an `SSEServerTransport`: the SDK generates
its session id at construction. -/
structure SSETransport where
  sessionId : String
deriving Repr, DecidableEq

/-- Association list lookup, modelling `Map.get`. -/
def lookupKey (k : String) : List (String × α) → Option α
  | [] => none
  | p :: ps => if p.1 = k then some p.2 else lookupKey k ps

/-- Removal of a key, modelling `Map.delete`. -/
def eraseKey (k : String) (l : List (String × α)) : List (String × α) :=
  l.filter (fun p => p.1 ≠ k)

/-- Insertion or replacement of a binding, modelling `Map.set`. -/
def setKey (k : String) (v : α) (l : List (String × α)) : List (String × α) :=
  (k, v) :: eraseKey k l

/-- The mutable state owned by `startHttpTransport`: the two session
registries (`sseSessions`, `streamableSessions`) plus bookkeeping of the
SSE response objects on which a `close` listener removing the session
has actually been attached (`res.on("close", ...)` runs only when
reached). -/
structure ServerState where
  sseSessions : List (String × SSETransport)
  streamableSessions : List (String × StreamTransport)
  sseCloseAttached : List String
deriving Repr, DecidableEq

/-- The empty initial state built at the top of `startHttpTransport`. -/
def initialState : ServerState := ⟨[], [], []⟩

/-- Effects a handler performs, in execution order. `connect sid b`
is a successful `mcpServer.connect(factory, transport, b)` for the
session `sid` (`none` for the stdio transport, which has no session id);
`connectFailed` is the same call rejecting. The `Set`/`Delete` events are
the registry mutations; `sseAttachClose` records that the close listener
deleting the SSE session was attached. -/
inductive Event where
  | connect (sid : Option String) (stateless : Bool)
  | connectFailed (sid : Option String) (stateless : Bool)
  | sseSet (sid : String) (t : SSETransport)
  | sseDelete (sid : String)
  | sseAttachClose (sid : String)
  | streamSet (sid : String) (t : StreamTransport)
  | streamDelete (sid : String)
deriving Repr, DecidableEq

/-- State transition of a single effect. -/
def applyEvent (s : ServerState) : Event → ServerState
  | .connect _ _ => s
  | .connectFailed _ _ => s
  | .sseSet sid t => { s with sseSessions := setKey sid t s.sseSessions }
  | .sseDelete sid => { s with sseSessions := eraseKey sid s.sseSessions }
  | .sseAttachClose sid => { s with sseCloseAttached := sid :: s.sseCloseAttached }
  | .streamSet sid t => { s with streamableSessions := setKey sid t s.streamableSessions }
  | .streamDelete sid => { s with streamableSessions := eraseKey sid s.streamableSessions }

/-- Final state after a handler run. -/
def runEvents (s : ServerState) (es : List Event) : ServerState :=
  es.foldl applyEvent s

/-- Every registry state along a handler run, the initial one included:
replaying a prefix of the effect list. A concurrent lookup on the single
threaded event loop observes exactly one of these states. -/
def statesAlong (s : ServerState) (es : List Event) : List ServerState :=
  List.scanl applyEvent s es

/-- Memory usage snapshot reported by `process.memoryUsage()`. -/
structure MemoryUsage where
  rss : Nat
  heapTotal : Nat
  heapUsed : Nat
  external : Nat
  arrayBuffers : Nat
deriving Repr, DecidableEq

/-- Ambient process data the health handler reads:
`process.env.npm_package_version` (possibly unset or empty),
`new Date().toISOString()`, `process.uptime()` (modelled as a Nat),
`process.memoryUsage()` and `process.pid`. -/
structure ProcessEnv where
  npmPackageVersion : Option String
  nowIso : String
  uptime : Nat
  memory : MemoryUsage
  pid : Nat
deriving Repr, DecidableEq

/-- The JSON payload `handleHealth` assembles. -/
structure HealthData where
  status : String
  timestamp : String
  version : String
  uptime : Nat
  sessionsSse : Nat
  sessionsStreamable : Nat
  sessionsTotal : Nat
  memory : MemoryUsage
  pid : Nat
deriving Repr, DecidableEq

/-- Observable outcome of one request. `response` is a plain status and
body; `responseAllow` additionally carries an `Allow` header;
`healthOk` is the 200 JSON health payload; `forwardedSSEPost` is
`transport.handlePostMessage` on the named session; `sseStreamOpened` is
a successfully established SSE stream; `forwardedStream` is
`transport.handleRequest` on the streamable transport registered under
the named session id; `handledFresh` is a fresh streamable transport
serving a non-initialize request without creating a session; `error` is
an exception escaping the handler (the promise rejects). -/
inductive HttpOutcome where
  | response (status : Nat) (body : String)
  | responseAllow (status : Nat) (allow : String) (body : String)
  | healthOk (status : Nat) (d : HealthData)
  | forwardedSSEPost (sid : String)
  | sseStreamOpened (sid : String)
  | forwardedStream (sid : String)
  | handledFresh
  | error (msg : String)
deriving Repr, DecidableEq

/-- Embedding of `handleSSE`. `connectOk` is whether
`mcpServer.connect` succeeds, `freshId` the session id the SDK generates
for a new `SSEServerTransport`. The POST branch reproduces the
JavaScript falsy test `if (!sessionId)`, which also catches a present
empty parameter. In the GET branch the source registers the session
before awaiting the connect and attaches the close listener only
afterwards, so a rejected connect leaves the session registered with no
listener attached. -/
def handleSSE (connectOk : Bool) (freshId : String) (req : Request)
    (url : UrlData) (s : ServerState) : HttpOutcome × List Event :=
  if req.method = "POST" then
    match url.sessionIdParam with
    | none => (.response 400 "Missing sessionId", [])
    | some sid =>
      if sid = "" then (.response 400 "Missing sessionId", [])
      else
        match lookupKey sid s.sseSessions with
        | none => (.response 404 "Session not found", [])
        | some _ => (.forwardedSSEPost sid, [])
  else if req.method = "GET" then
    if connectOk then
      (.sseStreamOpened freshId,
        [.sseSet freshId ⟨freshId⟩, .connect (some freshId) false,
         .sseAttachClose freshId])
    else
      (.error "backend connect failed",
        [.sseSet freshId ⟨freshId⟩, .connectFailed (some freshId) false])
  else
    (.response 405 "Method not allowed", [])

/-- The JSON object `healthData` the source assembles: the fixed status
token, the timestamp, the version string reproducing
`process.env.npm_package_version || "unknown"` (an unset or empty
variable falls back to `"unknown"`), the uptime, the two registry sizes
with their sum, the memory snapshot and the pid. -/
def healthData (env : ProcessEnv) (s : ServerState) : HealthData :=
  { status := "ok"
    timestamp := env.nowIso
    version :=
      match env.npmPackageVersion with
      | some v => if v = "" then "unknown" else v
      | none => "unknown"
    uptime := env.uptime
    sessionsSse := s.sseSessions.length
    sessionsStreamable := s.streamableSessions.length
    sessionsTotal := s.sseSessions.length + s.streamableSessions.length
    memory := env.memory
    pid := env.pid }

/-- Embedding of `handleHealth`: a pure read of the two registries and
the process environment. -/
def handleHealth (env : ProcessEnv) (req : Request) (s : ServerState) :
    HttpOutcome × List Event :=
  if req.method = "GET" then
    (.healthOk 200 (healthData env s), [])
  else
    (.responseAllow 405 "GET" "Method not allowed", [])

/-- Part of `handleStreamable` below the session-id guard: the source
reaches this code when `req.headers["mcp-session-id"]` is absent or
empty (the guard `if (sessionId)` is falsy). A POST is served by a fresh
`StreamableHTTPServerTransport` with a random id generator whose
`onsessioninitialized` callback first awaits the stateless connect and
only then stores the session; the SDK transport fires this callback
exactly when the body is an InitializeRequest, with the generated id,
after setting the transport fields. Any other method is answered 400. -/
def handleStreamableNoSession (connectOk : Bool) (freshId : String)
    (req : Request) : HttpOutcome × List Event :=
  if req.method = "POST" then
    if req.isInitializeRequest then
      if connectOk then
        (.forwardedStream freshId,
          [.connect (some freshId) true,
           .streamSet freshId ⟨.random, some freshId, true⟩])
      else
        (.error "backend connect failed",
          [.connectFailed (some freshId) true])
    else
      (.handledFresh, [])
  else
    (.response 400 "Invalid request", [])

/-- Embedding of `handleStreamable`. A truthy (present and non-empty)
`mcp-session-id` header is looked up; a hit is passed through to the
registered transport. On a miss the source creates a transport whose
generator returns the header value, manually marks it initialized with
that id, awaits the `_onsessioninitialized` callback (the stateless
connect), then stores it and forwards the request; a rejected connect
escapes before the store. A falsy header value falls to
`handleStreamableNoSession`, reproducing `if (sessionId)`. -/
def handleStreamable (connectOk : Bool) (freshId : String) (req : Request)
    (s : ServerState) : HttpOutcome × List Event :=
  match req.mcpSessionId with
  | some sid =>
    if sid = "" then handleStreamableNoSession connectOk freshId req
    else
      match lookupKey sid s.streamableSessions with
      | some _ => (.forwardedStream sid, [])
      | none =>
        if connectOk then
          (.forwardedStream sid,
            [.connect (some sid) true,
             .streamSet sid ⟨.fixed sid, some sid, true⟩])
        else
          (.error "backend connect failed",
            [.connectFailed (some sid) true])
  | none => handleStreamableNoSession connectOk freshId req

/-- Embedding of the JavaScript `String.prototype.startsWith`: a prefix
test on the character sequence. -/
def jsStartsWith (s pre : String) : Bool :=
  pre.data.isPrefixOf s.data

/-- Embedding of the request listener installed by `startHttpTransport`:
`new URL("http://localhost" ++ req.url)` is evaluated with no exception
guard, so an unparseable raw target makes the listener throw before any
dispatch; otherwise dispatch is on `url.pathname` alone. -/
def handleHttpRequest (connectOk : Bool) (freshId : String)
    (env : ProcessEnv) (req : Request) (s : ServerState) :
    HttpOutcome × List Event :=
  match req.url with
  | none => (.error "Invalid URL", [])
  | some url =>
    if url.pathname = "/health" then handleHealth env req s
    else if jsStartsWith url.pathname "/sse" then
      handleSSE connectOk freshId req url s
    else handleStreamable connectOk freshId req s

/-- Firing the `close` event of the response underlying an SSE session:
the listener `sessions.delete(transport.sessionId)` runs only when it
was attached. -/
def sseResClose (sid : String) (s : ServerState) : ServerState :=
  if sid ∈ s.sseCloseAttached then
    { s with sseSessions := eraseKey sid s.sseSessions }
  else s

/-- The `onclose` handler both streamable creation paths assign: the
falsy guard `if (!transport.sessionId) return` skips the deletion when
the field is unset or the empty string; otherwise the session under
`transport.sessionId` is deleted. -/
def streamOnClose (t : StreamTransport) (s : ServerState) : ServerState :=
  match t.sessionId with
  | none => s
  | some sid =>
    if sid = "" then s
    else { s with streamableSessions := eraseKey sid s.streamableSessions }

/-- Embedding of `startStdioTransport`: a single
`mcpServer.connect(factory, new StdioServerTransport(), false)`. -/
def startStdioTransport (connectOk : Bool) : List Event :=
  if connectOk then [.connect none false] else [.connectFailed none false]

/-- Which transport `start` wires up. -/
inductive TransportChoice where
  | httpTransport
  | stdioTransport
deriving Repr, DecidableEq

/-- Embedding of `start`: a configured port selects the HTTP transport,
no port selects stdio. -/
def start (port : Option Nat) : TransportChoice :=
  match port with
  | some _ => .httpTransport
  | none => .stdioTransport

/-- Sample process environment used to instantiate closed statements. -/
def envW : ProcessEnv :=
  ⟨some "1.0.0", "2026-10-11T00:00:00.000Z", 5, ⟨10, 20, 30, 40, 50⟩, 42⟩

/-- Sample registry state with two live SSE sessions and one live
streamable session. -/
def stateW : ServerState :=
  ⟨[("A", ⟨"A"⟩), ("B", ⟨"B"⟩)],
   [("C", ⟨.random, some "C", true⟩)],
   ["A", "B"]⟩

/-! Helper lemmas about the association list primitives. -/

theorem lookupKey_setKey_self (k : String) (v : α) (l : List (String × α)) :
    lookupKey k (setKey k v l) = some v := by
  simp [setKey, lookupKey]

theorem lookupKey_eraseKey_self (k : String) (l : List (String × α)) :
    lookupKey k (eraseKey k l) = none := by
  induction l with
  | nil => rfl
  | cons p ps ih =>
    rcases eq_or_ne p.1 k with h | h
    · simpa [eraseKey, List.filter_cons, h] using ih
    · simpa [eraseKey, List.filter_cons, h, lookupKey] using ih

theorem runEvents_nil (s : ServerState) : runEvents s [] = s := rfl

/-- C1: for every request whose URL parses, the listener dispatches
deterministically and statelessly on the path alone: exactly `/health`
goes to the health handler, a path starting with `/sse` goes to the
legacy SSE handler, and every other path goes to the streamable handler;
the statement quantifies over all registry states, session-id inputs and
backend outcomes, so the dispatch decision depends on none of them. -/
theorem c1_router_dispatch (connectOk : Bool) (freshId : String)
    (env : ProcessEnv) (req : Request) (s : ServerState) (u : UrlData)
    (hu : req.url = some u) :
    (u.pathname = "/health" →
      handleHttpRequest connectOk freshId env req s = handleHealth env req s) ∧
    (u.pathname ≠ "/health" → jsStartsWith u.pathname "/sse" = true →
      handleHttpRequest connectOk freshId env req s
        = handleSSE connectOk freshId req u s) ∧
    (u.pathname ≠ "/health" → jsStartsWith u.pathname "/sse" = false →
      handleHttpRequest connectOk freshId env req s
        = handleStreamable connectOk freshId req s) := by
  refine ⟨fun h => ?_, fun h hs => ?_, fun h hs => ?_⟩
  · simp [handleHttpRequest, hu, h]
  · simp [handleHttpRequest, hu, h, hs]
  · simp [handleHttpRequest, hu, h, hs]

/-- Witness for C1 at the three concrete paths `/health`, `/sse`,
`/mcp`. -/
theorem c1_router_dispatch_witness :
    handleHttpRequest true "S1" envW ⟨"GET", some ⟨"/health", none⟩, none, false⟩
        initialState
      = handleHealth envW ⟨"GET", some ⟨"/health", none⟩, none, false⟩ initialState ∧
    handleHttpRequest true "S1" envW ⟨"GET", some ⟨"/sse", none⟩, none, false⟩
        initialState
      = handleSSE true "S1" ⟨"GET", some ⟨"/sse", none⟩, none, false⟩
          ⟨"/sse", none⟩ initialState ∧
    handleHttpRequest true "S1" envW ⟨"POST", some ⟨"/mcp", none⟩, none, true⟩
        initialState
      = handleStreamable true "S1" ⟨"POST", some ⟨"/mcp", none⟩, none, true⟩
          initialState :=
  ⟨(c1_router_dispatch true "S1" envW _ initialState ⟨"/health", none⟩ rfl).1 rfl,
   (c1_router_dispatch true "S1" envW _ initialState ⟨"/sse", none⟩ rfl).2.1
     (by decide) (by decide),
   (c1_router_dispatch true "S1" envW _ initialState ⟨"/mcp", none⟩ rfl).2.2
     (by decide) (by decide)⟩

/-- C6 counterexample: a request whose raw target the URL constructor
rejects (for example a target whose concatenation behind
`http://localhost` puts a forbidden code point in the host) makes the
listener throw; it is not handled by the streamable branch, whose result
on the same request differs. -/
theorem c6_counterexample :
    handleHttpRequest true "S1" envW ⟨"GET", none, none, false⟩ initialState
      = (.error "Invalid URL", []) ∧
    handleHttpRequest true "S1" envW ⟨"GET", none, none, false⟩ initialState
      ≠ handleStreamable true "S1" ⟨"GET", none, none, false⟩ initialState := by
  exact ⟨rfl, by decide⟩

/-- C6 amended: an unparseable URL makes the `new URL` exception escape
the request listener before any dispatch: the request is routed to no
branch (in particular not to the streamable branch) and no registry
effect occurs. -/
theorem c6_amended_unparseable_url_raises (connectOk : Bool)
    (freshId : String) (env : ProcessEnv) (req : Request) (s : ServerState)
    (h : req.url = none) :
    handleHttpRequest connectOk freshId env req s = (.error "Invalid URL", []) := by
  simp [handleHttpRequest, h]

/-- Witness for the amended C6 at a concrete request. -/
theorem c6_amended_witness :
    handleHttpRequest true "S1" envW ⟨"OPTIONS", none, none, false⟩ initialState
      = (.error "Invalid URL", []) :=
  c6_amended_unparseable_url_raises true "S1" envW _ initialState rfl

/-- C8: a GET to the health handler returns 200 with a payload whose
status token is fixed, whose version falls back to `"unknown"` when the
package version is unset or empty, whose session counts are the sizes of
the two registries with the total their sum, and performs no registry
effect; any other method yields 405 with an `Allow: GET` header. -/
theorem c8_health_contract (env : ProcessEnv) (req : Request) (s : ServerState) :
    (req.method = "GET" →
      (handleHealth env req s).2 = [] ∧
      runEvents s (handleHealth env req s).2 = s ∧
      ∃ d, (handleHealth env req s).1 = .healthOk 200 d ∧
        d.status = "ok" ∧ d.timestamp = env.nowIso ∧
        d.uptime = env.uptime ∧ d.memory = env.memory ∧ d.pid = env.pid ∧
        d.sessionsSse = s.sseSessions.length ∧
        d.sessionsStreamable = s.streamableSessions.length ∧
        d.sessionsTotal = d.sessionsSse + d.sessionsStreamable ∧
        ((env.npmPackageVersion = none ∨ env.npmPackageVersion = some "") →
          d.version = "unknown") ∧
        (∀ v, env.npmPackageVersion = some v → v ≠ "" → d.version = v)) ∧
    (req.method ≠ "GET" →
      handleHealth env req s
        = (.responseAllow 405 "GET" "Method not allowed", [])) := by
  constructor
  · intro h
    refine ⟨by simp [handleHealth, h], by simp [handleHealth, h, runEvents],
      healthData env s, by simp [handleHealth, h], rfl, rfl, rfl, rfl, rfl,
      rfl, rfl, rfl, ?_, ?_⟩
    · rintro (hv | hv) <;> simp [healthData, hv]
    · intro v hv hne; simp [healthData, hv, hne]
  · intro h
    simp [handleHealth, h]

/-- Witness for C8: with two SSE sessions and one streamable session the
payload reports counts 2, 1 and total 3; a DELETE is answered 405 with
`Allow: GET`. -/
theorem c8_health_contract_witness :
    (handleHealth envW ⟨"GET", some ⟨"/health", none⟩, none, false⟩ stateW).2 = [] ∧
    (∃ d, (handleHealth envW ⟨"GET", some ⟨"/health", none⟩, none, false⟩ stateW).1
        = .healthOk 200 d ∧
      d.sessionsSse = 2 ∧ d.sessionsStreamable = 1 ∧ d.sessionsTotal = 3) ∧
    handleHealth envW ⟨"DELETE", some ⟨"/health", none⟩, none, false⟩ stateW
      = (.responseAllow 405 "GET" "Method not allowed", []) := by
  refine ⟨((c8_health_contract envW _ stateW).1 rfl).1, ?_,
    (c8_health_contract envW _ stateW).2 (by decide)⟩
  obtain ⟨-, -, d, hd, -, -, -, -, -, hsse, hstr, htot, -, -⟩ :=
    (c8_health_contract envW ⟨"GET", some ⟨"/health", none⟩, none, false⟩ stateW).1 rfl
  exact ⟨d, hd, by rw [hsse]; rfl, by rw [hstr]; rfl,
    by rw [htot, hsse, hstr]; rfl⟩

/-- C4 counterexample: a POST to the legacy prefix with a present but
empty `sessionId` parameter (`?sessionId=`) names no registered session,
so the claim requires 404 `Session not found`; the source guard
`if (!sessionId)` is truthy on the empty string and answers 400
`Missing sessionId` instead. -/
theorem c4_counterexample :
    handleSSE true "S1" ⟨"POST", some ⟨"/sse", some ""⟩, none, false⟩
        ⟨"/sse", some ""⟩ initialState
      = (.response 400 "Missing sessionId", []) ∧
    (handleSSE true "S1" ⟨"POST", some ⟨"/sse", some ""⟩, none, false⟩
        ⟨"/sse", some ""⟩ initialState).1
      ≠ .response 404 "Session not found" := by
  exact ⟨rfl, by decide⟩

/-- C4 amended: a missing or empty `sessionId` parameter yields 400
`Missing sessionId` with no registry effect; a non-empty parameter
naming no registered session yields 404 `Session not found` with no
registry effect; an existing session receives the forwarded body; any
method other than POST or GET yields 405 `Method not allowed`. -/
theorem c4_amended_sse_post_validation (connectOk : Bool) (freshId : String) :
    (∀ req u s, req.method = "POST" →
      (u.sessionIdParam = none ∨ u.sessionIdParam = some "") →
      handleSSE connectOk freshId req u s
        = (.response 400 "Missing sessionId", []) ∧
      runEvents s (handleSSE connectOk freshId req u s).2 = s) ∧
    (∀ req u s sid, req.method = "POST" → u.sessionIdParam = some sid →
      sid ≠ "" → lookupKey sid s.sseSessions = none →
      handleSSE connectOk freshId req u s
        = (.response 404 "Session not found", []) ∧
      runEvents s (handleSSE connectOk freshId req u s).2 = s) ∧
    (∀ req u s sid t, req.method = "POST" → u.sessionIdParam = some sid →
      sid ≠ "" → lookupKey sid s.sseSessions = some t →
      handleSSE connectOk freshId req u s = (.forwardedSSEPost sid, [])) ∧
    (∀ req u s, req.method ≠ "POST" → req.method ≠ "GET" →
      handleSSE connectOk freshId req u s
        = (.response 405 "Method not allowed", [])) := by
  refine ⟨?_, ?_, ?_, ?_⟩
  · rintro req u s hm (hv | hv) <;> simp [handleSSE, hm, hv, runEvents]
  · intro req u s sid hm hv hne hmiss
    simp [handleSSE, hm, hv, hne, hmiss, runEvents]
  · intro req u s sid t hm hv hne hhit
    simp [handleSSE, hm, hv, hne, hhit]
  · intro req u s hp hg
    simp [handleSSE, hp, hg]

/-- Witness for the amended C4 at one concrete input per clause, over
the sample registry with sessions `A` and `B`. -/
theorem c4_amended_witness :
    handleSSE true "S1" ⟨"POST", some ⟨"/sse", none⟩, none, false⟩
        ⟨"/sse", none⟩ stateW
      = (.response 400 "Missing sessionId", []) ∧
    handleSSE true "S1" ⟨"POST", some ⟨"/sse", some "Z"⟩, none, false⟩
        ⟨"/sse", some "Z"⟩ stateW
      = (.response 404 "Session not found", []) ∧
    handleSSE true "S1" ⟨"POST", some ⟨"/sse", some "A"⟩, none, false⟩
        ⟨"/sse", some "A"⟩ stateW
      = (.forwardedSSEPost "A", []) ∧
    handleSSE true "S1" ⟨"DELETE", some ⟨"/sse", none⟩, none, false⟩
        ⟨"/sse", none⟩ stateW
      = (.response 405 "Method not allowed", []) :=
  ⟨((c4_amended_sse_post_validation true "S1").1 _ _ stateW rfl (Or.inl rfl)).1,
   ((c4_amended_sse_post_validation true "S1").2.1 _ _ stateW "Z" rfl rfl
     (by decide) (by decide)).1,
   (c4_amended_sse_post_validation true "S1").2.2.1 _ _ stateW "A" ⟨"A"⟩ rfl rfl
     (by decide) (by decide),
   (c4_amended_sse_post_validation true "S1").2.2.2 _ _ stateW
     (by decide) (by decide)⟩

/-- C2 counterexample: a request carrying the `mcp-session-id` header
with the empty value, which is in no registry, does not create a session
under that value: the falsy guard `if (sessionId)` sends it to the
no-session branch, which answers 400 and stores nothing. -/
theorem c2_counterexample :
    ((⟨"DELETE", some ⟨"/mcp", none⟩, some "", false⟩ : Request).mcpSessionId).isSome
      = true ∧
    lookupKey "" initialState.streamableSessions = none ∧
    handleStreamable true "F1" ⟨"DELETE", some ⟨"/mcp", none⟩, some "", false⟩
        initialState
      = (.response 400 "Invalid request", []) ∧
    lookupKey ""
        (runEvents initialState
          (handleStreamable true "F1"
            ⟨"DELETE", some ⟨"/mcp", none⟩, some "", false⟩
            initialState).2).streamableSessions
      = none := by
  decide

/-- C2 amended: for every streamable request carrying a non-empty
`mcp-session-id` header value absent from the registry, when the backend
connect succeeds a session is created synchronously and eagerly under
the header value verbatim (the stored transport is marked initialized
with that id, and the initialization callback has run, performing the
stateless connect before the store), and every subsequent request
carrying the same header value is passed through to that session. -/
theorem c2_amended_eager_session_idempotent (freshId freshId2 : String)
    (req : Request) (s : ServerState) (sid : String)
    (hh : req.mcpSessionId = some sid) (hne : sid ≠ "")
    (hmiss : lookupKey sid s.streamableSessions = none) :
    handleStreamable true freshId req s
      = (.forwardedStream sid,
         [.connect (some sid) true,
          .streamSet sid ⟨.fixed sid, some sid, true⟩]) ∧
    lookupKey sid
        (runEvents s (handleStreamable true freshId req s).2).streamableSessions
      = some ⟨.fixed sid, some sid, true⟩ ∧
    (∀ req2 : Request, req2.mcpSessionId = some sid →
      handleStreamable true freshId2 req2
          (runEvents s (handleStreamable true freshId req s).2)
        = (.forwardedStream sid, [])) := by
  have hmain : handleStreamable true freshId req s
      = (.forwardedStream sid,
         [.connect (some sid) true,
          .streamSet sid ⟨.fixed sid, some sid, true⟩]) := by
    simp [handleStreamable, hh, hne, hmiss]
  have hstate : runEvents s (handleStreamable true freshId req s).2
      = { s with streamableSessions :=
            setKey sid ⟨.fixed sid, some sid, true⟩ s.streamableSessions } := by
    rw [hmain]
    rfl
  refine ⟨hmain, ?_, ?_⟩
  · rw [hstate]
    exact lookupKey_setKey_self sid ⟨.fixed sid, some sid, true⟩ s.streamableSessions
  · intro req2 hh2
    rw [hstate]
    simp [handleStreamable, hh2, hne, lookupKey_setKey_self]

/-- Witness for the amended C2: scenario C at header value `S3`. -/
theorem c2_amended_witness :
    handleStreamable true "F1" ⟨"POST", some ⟨"/mcp", none⟩, some "S3", false⟩
        initialState
      = (.forwardedStream "S3",
         [.connect (some "S3") true,
          .streamSet "S3" ⟨.fixed "S3", some "S3", true⟩]) ∧
    handleStreamable true "F2" ⟨"GET", some ⟨"/mcp", none⟩, some "S3", false⟩
        (runEvents initialState
          (handleStreamable true "F1"
            ⟨"POST", some ⟨"/mcp", none⟩, some "S3", false⟩ initialState).2)
      = (.forwardedStream "S3", []) := by
  obtain ⟨h1, -, h3⟩ := c2_amended_eager_session_idempotent "F1" "F2"
    ⟨"POST", some ⟨"/mcp", none⟩, some "S3", false⟩ initialState "S3"
    rfl (by decide) rfl
  exact ⟨h1, h3 _ rfl⟩

/-- C3: a streamable POST with an absent or empty session header and an
InitializeRequest body creates a transport with the random generator;
the effects are exactly the stateless connect followed by the
registration under the generated id, so every registry state before the
final one still resolves the id to nothing (no lookup observes a
half-initialized entry), the final state stores the initialized
transport, and when the connect rejects nothing is ever stored. -/
theorem c3_fresh_post_deferred_registration (freshId : String) (req : Request)
    (s : ServerState)
    (hh : req.mcpSessionId = none ∨ req.mcpSessionId = some "")
    (hm : req.method = "POST") (hi : req.isInitializeRequest = true)
    (hfresh : lookupKey freshId s.streamableSessions = none) :
    (handleStreamable true freshId req s).2
      = [.connect (some freshId) true,
         .streamSet freshId ⟨.random, some freshId, true⟩] ∧
    (∀ s2 ∈ (statesAlong s (handleStreamable true freshId req s).2).dropLast,
      lookupKey freshId s2.streamableSessions = none) ∧
    lookupKey freshId
        (runEvents s (handleStreamable true freshId req s).2).streamableSessions
      = some ⟨.random, some freshId, true⟩ ∧
    (handleStreamable false freshId req s).2
      = [.connectFailed (some freshId) true] ∧
    lookupKey freshId
        (runEvents s (handleStreamable false freshId req s).2).streamableSessions
      = none := by
  have hmain : handleStreamable true freshId req s
      = (.forwardedStream freshId,
         [.connect (some freshId) true,
          .streamSet freshId ⟨.random, some freshId, true⟩]) := by
    rcases hh with hh | hh <;>
      simp [handleStreamable, handleStreamableNoSession, hh, hm, hi]
  have hfail : handleStreamable false freshId req s
      = (.error "backend connect failed",
         [.connectFailed (some freshId) true]) := by
    rcases hh with hh | hh <;>
      simp [handleStreamable, handleStreamableNoSession, hh, hm, hi]
  refine ⟨by rw [hmain], ?_, ?_, by rw [hfail], ?_⟩
  · rw [hmain]
    intro s2 hs2
    simp [statesAlong, List.scanl, applyEvent, List.dropLast] at hs2
    subst hs2
    exact hfresh
  · rw [hmain]
    simpa [runEvents, applyEvent] using
      lookupKey_setKey_self freshId ⟨.random, some freshId, true⟩
        s.streamableSessions
  · rw [hfail]
    simpa [runEvents, applyEvent] using hfresh

/-- Witness for C3 at a concrete fresh POST over the empty state. -/
theorem c3_fresh_post_witness :
    (handleStreamable true "U1" ⟨"POST", some ⟨"/mcp", none⟩, none, true⟩
        initialState).2
      = [.connect (some "U1") true,
         .streamSet "U1" ⟨.random, some "U1", true⟩] ∧
    lookupKey "U1"
        (runEvents initialState
          (handleStreamable true "U1" ⟨"POST", some ⟨"/mcp", none⟩, none, true⟩
            initialState).2).streamableSessions
      = some ⟨.random, some "U1", true⟩ := by
  obtain ⟨h1, -, h3, -, -⟩ := c3_fresh_post_deferred_registration "U1"
    ⟨"POST", some ⟨"/mcp", none⟩, none, true⟩ initialState (Or.inl rfl)
    rfl rfl rfl
  exact ⟨h1, h3⟩

/-- C5 counterexample: an SSE session registered by an establish whose
backend connect rejected has no close listener attached, so firing the
close event of its connection leaves it registered and a lookup of its
id still finds it. -/
theorem c5_counterexample :
    lookupKey "S1"
        (runEvents initialState
          (handleSSE false "S1" ⟨"GET", some ⟨"/sse", none⟩, none, false⟩
            ⟨"/sse", none⟩ initialState).2).sseSessions
      = some ⟨"S1"⟩ ∧
    sseResClose "S1"
        (runEvents initialState
          (handleSSE false "S1" ⟨"GET", some ⟨"/sse", none⟩, none, false⟩
            ⟨"/sse", none⟩ initialState).2)
      = runEvents initialState
          (handleSSE false "S1" ⟨"GET", some ⟨"/sse", none⟩, none, false⟩
            ⟨"/sse", none⟩ initialState).2 ∧
    lookupKey "S1"
        (sseResClose "S1"
          (runEvents initialState
            (handleSSE false "S1" ⟨"GET", some ⟨"/sse", none⟩, none, false⟩
              ⟨"/sse", none⟩ initialState).2)).sseSessions
      ≠ none := by
  decide

/-- C5 amended: connection close removes every registered session whose
establishment completed. Every transport the streamable handler stores
carries its registry key as its session id — non-empty on the header
path (the truthy guard admitted it), the generated id on the fresh
path — and the assigned onclose deletes that key whenever it is
non-empty (the falsy guard skips only an unset or empty id); for SSE
the close listener deletes the session and a successful establish
always attaches it. After the removal a lookup of the id resolves to
nothing. -/
theorem c5_amended_close_removes_completed :
    (∀ (t : StreamTransport) (sid : String) (s : ServerState),
      t.sessionId = some sid → sid ≠ "" →
      lookupKey sid (streamOnClose t s).streamableSessions = none) ∧
    (∀ (c : Bool) (f : String) (req : Request) (s : ServerState) sid t,
      Event.streamSet sid t ∈ (handleStreamable c f req s).2 →
      t.sessionId = some sid ∧ (sid ≠ "" ∨ sid = f)) ∧
    (∀ (sid : String) (s : ServerState), sid ∈ s.sseCloseAttached →
      lookupKey sid (sseResClose sid s).sseSessions = none) ∧
    (∀ (f : String) (req : Request) (u : UrlData) (s : ServerState),
      req.method = "GET" →
      lookupKey f
          (sseResClose f (runEvents s (handleSSE true f req u s).2)).sseSessions
        = none) := by
  refine ⟨?_, ?_, ?_, ?_⟩
  · intro t sid s h hne
    simp [streamOnClose, h, hne, lookupKey_eraseKey_self]
  · intro c f req s sid t hmem
    rcases req with ⟨m, u, mh, ib⟩
    rcases mh with - | sid2
    · cases c <;>
        simp only [handleStreamable, handleStreamableNoSession] at hmem <;>
        (try split_ifs at hmem) <;> simp_all
    · by_cases he2 : sid2 = ""
      · subst he2
        cases c <;>
          simp only [handleStreamable, handleStreamableNoSession] at hmem <;>
          (try split_ifs at hmem) <;> simp_all
      · rcases hl : lookupKey sid2 s.streamableSessions with - | t2 <;>
          cases c <;>
            simp only [handleStreamable, hl] at hmem <;>
            (try split_ifs at hmem) <;> simp_all
  · intro sid s h
    simp [sseResClose, h, lookupKey_eraseKey_self]
  · intro f req u s hm
    have hev : (handleSSE true f req u s).2
        = [.sseSet f ⟨f⟩, .connect (some f) false, .sseAttachClose f] := by
      simp [handleSSE, hm]
    rw [hev]
    simp [runEvents, applyEvent, sseResClose, lookupKey_eraseKey_self]

/-- Witness for the amended C5: one instance per clause. -/
theorem c5_amended_witness :
    lookupKey "C"
        (streamOnClose ⟨.random, some "C", true⟩ stateW).streamableSessions
      = none ∧
    ((⟨.fixed "S3", some "S3", true⟩ : StreamTransport).sessionId = some "S3" ∧
      (("S3" : String) ≠ "" ∨ ("S3" : String) = "F1")) ∧
    lookupKey "A" (sseResClose "A" stateW).sseSessions = none ∧
    lookupKey "S9"
        (sseResClose "S9"
          (runEvents initialState
            (handleSSE true "S9" ⟨"GET", some ⟨"/sse", none⟩, none, false⟩
              ⟨"/sse", none⟩ initialState).2)).sseSessions
      = none :=
  ⟨c5_amended_close_removes_completed.1 ⟨.random, some "C", true⟩ "C" stateW rfl
     (by decide),
   c5_amended_close_removes_completed.2.1 true "F1"
     ⟨"POST", some ⟨"/mcp", none⟩, some "S3", false⟩ initialState "S3"
     ⟨.fixed "S3", some "S3", true⟩ (by decide),
   c5_amended_close_removes_completed.2.2.1 "A" stateW (by decide),
   c5_amended_close_removes_completed.2.2.2 "S9"
     ⟨"GET", some ⟨"/sse", none⟩, none, false⟩ ⟨"/sse", none⟩ initialState rfl⟩

/-- C7: every backend connect the streamable handler performs (eager
header path or fresh POST path, succeeding or rejecting) passes the
stateless flag as true; every connect the SSE handler or the stdio
alternative performs passes it as false. -/
theorem c7_stateless_flags :
    (∀ (c : Bool) (f : String) (req : Request) (s : ServerState) sid b,
      Event.connect sid b ∈ (handleStreamable c f req s).2 → b = true) ∧
    (∀ (c : Bool) (f : String) (req : Request) (s : ServerState) sid b,
      Event.connectFailed sid b ∈ (handleStreamable c f req s).2 → b = true) ∧
    (∀ (c : Bool) (f : String) (req : Request) (u : UrlData)
      (s : ServerState) sid b,
      Event.connect sid b ∈ (handleSSE c f req u s).2 → b = false) ∧
    (∀ (c : Bool) (f : String) (req : Request) (u : UrlData)
      (s : ServerState) sid b,
      Event.connectFailed sid b ∈ (handleSSE c f req u s).2 → b = false) ∧
    (∀ (c : Bool) (sid : Option String) (b : Bool),
      Event.connect sid b ∈ startStdioTransport c → b = false) ∧
    (∀ (c : Bool) (sid : Option String) (b : Bool),
      Event.connectFailed sid b ∈ startStdioTransport c → b = false) := by
  have hstream : ∀ (c : Bool) (f : String) (req : Request) (s : ServerState)
      (sid : Option String) (b : Bool),
      (Event.connect sid b ∈ (handleStreamable c f req s).2 ∨
       Event.connectFailed sid b ∈ (handleStreamable c f req s).2) →
      b = true := by
    intro c f req s sid b hmem
    rcases req with ⟨m, u, mh, ib⟩
    rcases mh with - | sid2
    · cases c <;>
        simp only [handleStreamable, handleStreamableNoSession] at hmem <;>
        (try split_ifs at hmem) <;> simp_all
    · by_cases he2 : sid2 = ""
      · subst he2
        cases c <;>
          simp only [handleStreamable, handleStreamableNoSession] at hmem <;>
          (try split_ifs at hmem) <;> simp_all
      · rcases hl : lookupKey sid2 s.streamableSessions with - | t2 <;>
          cases c <;>
            simp only [handleStreamable, hl] at hmem <;>
            (try split_ifs at hmem) <;> simp_all
  have hsse : ∀ (c : Bool) (f : String) (req : Request) (u : UrlData)
      (s : ServerState) (sid : Option String) (b : Bool),
      (Event.connect sid b ∈ (handleSSE c f req u s).2 ∨
       Event.connectFailed sid b ∈ (handleSSE c f req u s).2) →
      b = false := by
    intro c f req u s sid b hmem
    by_cases hp : req.method = "POST"
    · rcases hv : u.sessionIdParam with - | sid2
      · simp [handleSSE, hp, hv] at hmem
      · by_cases he2 : sid2 = ""
        · simp [handleSSE, hp, hv, he2] at hmem
        · rcases hl : lookupKey sid2 s.sseSessions with - | t2 <;>
            simp [handleSSE, hp, hv, he2, hl] at hmem
    · by_cases hg : req.method = "GET"
      · cases c <;> simp only [handleSSE, hp, hg] at hmem <;> simp_all
      · simp [handleSSE, hp, hg] at hmem
  refine ⟨fun c f req s sid b h => hstream c f req s sid b (Or.inl h),
    fun c f req s sid b h => hstream c f req s sid b (Or.inr h),
    fun c f req u s sid b h => hsse c f req u s sid b (Or.inl h),
    fun c f req u s sid b h => hsse c f req u s sid b (Or.inr h),
    ?_, ?_⟩ <;>
      (intro c sid b h; cases c <;> simp_all [startStdioTransport])

/-- Witness for C7: concrete connect events of each kind, with the
membership hypotheses discharged by evaluation. -/
theorem c7_stateless_flags_witness :
    Event.connect (some "S3") true
        ∈ (handleStreamable true "F1"
            ⟨"POST", some ⟨"/mcp", none⟩, some "S3", false⟩ initialState).2 ∧
    true = true ∧
    Event.connect (some "S1") false
        ∈ (handleSSE true "S1" ⟨"GET", some ⟨"/sse", none⟩, none, false⟩
            ⟨"/sse", none⟩ initialState).2 ∧
    false = false ∧
    Event.connect none false ∈ startStdioTransport true :=
  ⟨by decide,
   c7_stateless_flags.1 true "F1"
     ⟨"POST", some ⟨"/mcp", none⟩, some "S3", false⟩ initialState
     (some "S3") true (by decide),
   by decide,
   c7_stateless_flags.2.2.1 true "S1"
     ⟨"GET", some ⟨"/sse", none⟩, none, false⟩ ⟨"/sse", none⟩ initialState
     (some "S1") false (by decide),
   by decide⟩

/-- C9: the legacy GET establish registers the session before the
connect is awaited and attaches the close listener only after the
connect completes: when the connect rejects, the handler throws with the
session still registered and no listener attached, so firing close never
removes it. The success run shows the attach ordered after the
connect. -/
theorem c9_sse_connect_failure_leaks (freshId : String) (req : Request)
    (u : UrlData) (s : ServerState) (hm : req.method = "GET")
    (hnc : freshId ∉ s.sseCloseAttached) :
    (handleSSE true freshId req u s).2
      = [.sseSet freshId ⟨freshId⟩, .connect (some freshId) false,
         .sseAttachClose freshId] ∧
    handleSSE false freshId req u s
      = (.error "backend connect failed",
         [.sseSet freshId ⟨freshId⟩, .connectFailed (some freshId) false]) ∧
    lookupKey freshId
        (runEvents s (handleSSE false freshId req u s).2).sseSessions
      = some ⟨freshId⟩ ∧
    sseResClose freshId (runEvents s (handleSSE false freshId req u s).2)
      = runEvents s (handleSSE false freshId req u s).2 := by
  have hok : (handleSSE true freshId req u s).2
      = [.sseSet freshId ⟨freshId⟩, .connect (some freshId) false,
         .sseAttachClose freshId] := by
    simp [handleSSE, hm]
  have hf : handleSSE false freshId req u s
      = (.error "backend connect failed",
         [.sseSet freshId ⟨freshId⟩, .connectFailed (some freshId) false]) := by
    simp [handleSSE, hm]
  have hstate : runEvents s (handleSSE false freshId req u s).2
      = { s with sseSessions := setKey freshId ⟨freshId⟩ s.sseSessions } := by
    rw [hf]
    rfl
  refine ⟨hok, hf, ?_, ?_⟩
  · rw [hstate]
    exact lookupKey_setKey_self freshId ⟨freshId⟩ s.sseSessions
  · rw [hstate]
    simp [sseResClose, hnc]

/-- Witness for C9 over the empty state. -/
theorem c9_sse_connect_failure_witness :
    handleSSE false "S1" ⟨"GET", some ⟨"/sse", none⟩, none, false⟩
        ⟨"/sse", none⟩ initialState
      = (.error "backend connect failed",
         [.sseSet "S1" ⟨"S1"⟩, .connectFailed (some "S1") false]) ∧
    lookupKey "S1"
        (runEvents initialState
          (handleSSE false "S1" ⟨"GET", some ⟨"/sse", none⟩, none, false⟩
            ⟨"/sse", none⟩ initialState).2).sseSessions
      = some ⟨"S1"⟩ := by
  obtain ⟨-, h2, h3, -⟩ := c9_sse_connect_failure_leaks "S1"
    ⟨"GET", some ⟨"/sse", none⟩, none, false⟩ ⟨"/sse", none⟩ initialState
    rfl (by decide)
  exact ⟨h2, h3⟩

/-- C10 counterexample: a GET carrying the `mcp-session-id` header with
the empty value is answered 400 `Invalid request`, although the claim
reserves that response for requests carrying no header. -/
theorem c10_counterexample :
    ((⟨"GET", some ⟨"/mcp", none⟩, some "", false⟩ : Request).mcpSessionId).isSome
      = true ∧
    handleStreamable true "F2" ⟨"GET", some ⟨"/mcp", none⟩, some "", false⟩
        initialState
      = (.response 400 "Invalid request", []) := by
  decide

/-- C10 amended: the 400 `Invalid request` response is reachable only
for requests whose `mcp-session-id` header is absent or empty and whose
method is not POST; every request carrying a non-empty header value —
regardless of method — is, when the backend connect succeeds, answered
by the transport registered under that id (the existing session, or the
eagerly created and registered one). -/
theorem c10_amended_invalid_request_reachability :
    (∀ (c : Bool) (f : String) (req : Request) (s : ServerState),
      (handleStreamable c f req s).1 = .response 400 "Invalid request" →
      (req.mcpSessionId = none ∨ req.mcpSessionId = some "") ∧
      req.method ≠ "POST") ∧
    (∀ (f : String) (req : Request) (s : ServerState) (sid : String),
      req.mcpSessionId = some sid → sid ≠ "" →
      (handleStreamable true f req s).1 = .forwardedStream sid ∧
      lookupKey sid
          (runEvents s
            (handleStreamable true f req s).2).streamableSessions
        ≠ none) := by
  constructor
  · intro c f req s hout
    rcases req with ⟨m, u, mh, ib⟩
    rcases mh with - | sid2
    · by_cases hp : m = "POST"
      · cases c <;>
          simp only [handleStreamable, handleStreamableNoSession, hp] at hout <;>
          (try split_ifs at hout) <;> simp_all
      · exact ⟨Or.inl rfl, hp⟩
    · by_cases he2 : sid2 = ""
      · subst he2
        by_cases hp : m = "POST"
        · cases c <;>
            simp only [handleStreamable, handleStreamableNoSession, hp] at hout <;>
            (try split_ifs at hout) <;> simp_all
        · exact ⟨Or.inr rfl, hp⟩
      · rcases hl : lookupKey sid2 s.streamableSessions with - | t2 <;>
          cases c <;>
            simp only [handleStreamable, hl] at hout <;>
            (try split_ifs at hout) <;> simp_all
  · intro f req s sid hh hne
    rcases hl : lookupKey sid s.streamableSessions with - | t2
    · have hmain : handleStreamable true f req s
          = (.forwardedStream sid,
             [.connect (some sid) true,
              .streamSet sid ⟨.fixed sid, some sid, true⟩]) := by
        simp [handleStreamable, hh, hne, hl]
      rw [hmain]
      refine ⟨rfl, ?_⟩
      simp [runEvents, applyEvent, lookupKey_setKey_self]
    · have hmain : handleStreamable true f req s = (.forwardedStream sid, []) := by
        simp [handleStreamable, hh, hne, hl]
      rw [hmain]
      exact ⟨rfl, by simp [runEvents, hl]⟩

/-- Witness for the amended C10: one instance per clause. -/
theorem c10_amended_witness :
    (((⟨"PUT", some ⟨"/mcp", none⟩, none, false⟩ : Request).mcpSessionId = none ∨
      (⟨"PUT", some ⟨"/mcp", none⟩, none, false⟩ : Request).mcpSessionId
        = some "") ∧
      (⟨"PUT", some ⟨"/mcp", none⟩, none, false⟩ : Request).method ≠ "POST") ∧
    (handleStreamable true "F1"
        ⟨"DELETE", some ⟨"/mcp", none⟩, some "S5", false⟩ initialState).1
      = .forwardedStream "S5" ∧
    lookupKey "S5"
        (runEvents initialState
          (handleStreamable true "F1"
            ⟨"DELETE", some ⟨"/mcp", none⟩, some "S5", false⟩
            initialState).2).streamableSessions
      ≠ none :=
  ⟨c10_amended_invalid_request_reachability.1 true "F9"
     ⟨"PUT", some ⟨"/mcp", none⟩, none, false⟩ initialState (by decide),
   c10_amended_invalid_request_reachability.2 "F1"
     ⟨"DELETE", some ⟨"/mcp", none⟩, some "S5", false⟩ initialState "S5"
     rfl (by decide)⟩

end McpTransport
